import Mathlib

/-!
Shallow embedding of the DC tour-planner blog-post code (Mastra + Mapbox MCP,
plain and OAuth variants) and proofs checking the natural-language
specification against it.

The embedding models the TypeScript sources:
  * `src/mastra/src/types/index.ts` (plain variant MCP wrappers: geocodeLocation,
    categorySearch, calculateRoute) and `src/unnamed/part_002` (OAuth variant,
    byte-for-byte the same wrapper logic);
  * `src/unnamed/part_005` (the plan-route HTTP POST handler);
  * `src/unnamed/part_001` (the Mastra agent: tool capture variables and
    processNaturalLanguageQuery);
  * `src/mastra-oauth/src/lib/oauth.ts` (OAUTH_CONFIG, getAuthorizationUrl);
  * `src/mastra-oauth/src/app/page.tsx` (client-side OAuth callback handling)
    and `src/unnamed/part_003` (the /auth/callback GET route).

External effects (the remote MCP server, fetch) are modelled as oracles:
functions from the exact request arguments the code builds to the tool
result the server would return.  JS numbers are modelled as ℚ; values that
can be `undefined` at runtime are `Option`s; a JS `throw` is the `.error`
side of an `Except`.
-/

namespace DCTour

/-- JS `a || b` where `a : Option String` (possibly `undefined`) and the
falsy strings are `""`: yields `b` when `a` is `undefined` or empty. -/
def jsOrStr (a : Option String) (b : String) : String :=
  match a with
  | some s => if s = "" then b else s
  | none => b

/-- JS `a || b` where both sides may be `undefined`. -/
def jsOrOpt (a b : Option String) : Option String :=
  match a with
  | some s => if s = "" then b else some s
  | none => b

/-- JS `Math.round`: round half toward positive infinity. -/
def jsRound (x : ℚ) : ℤ := ⌊x + 1/2⌋

/-- Print a non-negative number of hundredths as a decimal with exactly two
fraction digits. -/
def twoDecString (n : ℤ) : String :=
  let m := n.toNat
  toString (m / 100) ++ "." ++
    (if m % 100 < 10 then "0" ++ toString (m % 100) else toString (m % 100))

/-- JS `Number.prototype.toFixed(2)` for the non-negative magnitudes this code
produces: round to the nearest hundredth and print with exactly two decimals. -/
def toFixed2 (x : ℚ) : String := twoDecString ⌊x * 100 + 1/2⌋

/-! ## MCP tool results (CallToolResultSchema shape) -/

/-- One entry of a tool result's `content` array. -/
inductive ContentEntry where
  | text (s : String)
  | other
  deriving DecidableEq, Repr

/-- A thrown JS error: either an explicit `throw new Error(msg)` or a runtime
`TypeError` raised by a property access on `undefined`. -/
inductive JsError where
  | error (msg : String)
  | typeError (msg : String)
  deriving DecidableEq, Repr

/-- The `message` carried by a thrown error (what the HTTP handlers surface). -/
def JsError.message : JsError → String
  | .error m => m
  | .typeError m => m

/-- The error branch shared by geocodeLocation / categorySearch / calculateRoute:
```
const firstContent = result.content[0];
if (firstContent.type === 'text') {
  throw new Error(`MCP tool error: ${firstContent.text}`);
}
throw new Error('MCP tool returned an error');
```
When `content` is empty, `result.content[0]` is `undefined` and the access
`firstContent.type` itself throws a TypeError before either `throw` is reached. -/
def toolErrorBranch (content : List ContentEntry) : JsError :=
  match content with
  | [] => JsError.typeError "Cannot read properties of undefined (reading type)"
  | ContentEntry.text s :: _ => JsError.error ("MCP tool error: " ++ s)
  | ContentEntry.other :: _ => JsError.error "MCP tool returned an error"

/-! ## Geocoding / category search (feature collections) -/

/-- `feature.properties` as the code reads it. -/
structure FeatureProps where
  name : Option String
  full_address : Option String
  place_formatted : Option String
  deriving DecidableEq, Repr

/-- A GeoJSON feature: properties plus `geometry.coordinates` (lng, lat). -/
structure Feature where
  properties : FeatureProps
  coordinates : ℚ × ℚ
  deriving DecidableEq, Repr

/-- `structuredContent` of a geocode / category-search result: `data.features`
may itself be missing (`!data.features`). -/
structure GeoData where
  features : Option (List Feature)
  deriving DecidableEq, Repr

/-- A tool result for a feature-collection tool; `structuredContent` may be
missing (`!data`). -/
structure GeoResult where
  isError : Bool
  content : List ContentEntry
  structuredContent : Option GeoData
  deriving DecidableEq, Repr

/-- Return value of `geocodeLocation` (`name` is the JS expression
`feature.properties.name || feature.properties.full_address`, which is
`undefined` when both are). -/
structure GeoLocation where
  name : Option String
  coordinates : ℚ × ℚ
  deriving DecidableEq, Repr

/-- One element of the array `categorySearch` returns. -/
structure SearchResult where
  name : Option String
  coordinates : ℚ × ℚ
  address : Option String
  deriving DecidableEq, Repr

/-- Arguments `geocodeLocation` passes to `search_and_geocode_tool`. -/
structure GeocodeArgs where
  q : String
  proximity : ℚ × ℚ
  country : List String
  deriving DecidableEq, Repr

/-- Arguments `categorySearch` passes to `category_search_tool`. -/
structure CategoryArgs where
  category : String
  proximity : ℚ × ℚ
  country : List String
  limit : ℕ
  format : String
  deriving DecidableEq, Repr

/-- A coordinate object `{longitude, latitude}`. -/
structure CoordObj where
  longitude : ℚ
  latitude : ℚ
  deriving DecidableEq, Repr

/-- Arguments `calculateRoute` passes to `directions_tool`. -/
structure DirectionsArgs where
  coordinates : List CoordObj
  routing_profile : String
  geometries : String
  deriving DecidableEq, Repr

/-- The request `geocodeLocation` builds: fixed DC proximity bias and
`country: ['us']`. -/
def geocodeRequest (address : String) : GeocodeArgs :=
  { q := address
    proximity := (-(770369/10000 : ℚ), (389072/10000 : ℚ))
    country := ["us"] }

/-- The request `categorySearch` builds: fixed `limit: 10`, `country: ['us']`,
`format: 'json_string'`. -/
def categorySearchRequest (category : String) (proximity : ℚ × ℚ) : CategoryArgs :=
  { category := category
    proximity := proximity
    country := ["us"]
    limit := 10
    format := "json_string" }

/-- The request `calculateRoute` builds: each `[lng, lat]` pair becomes a
`{longitude, latitude}` object; fixed walking profile and geojson geometries. -/
def directionsRequest (coordinates : List (ℚ × ℚ)) : DirectionsArgs :=
  { coordinates := coordinates.map (fun p => { longitude := p.1, latitude := p.2 })
    routing_profile := "walking"
    geometries := "geojson" }

/-- `geocodeLocation(address)` applied to the tool result the server returned:
error results go through the shared error branch; a missing/empty feature
collection throws `Could not geocode: ${address}`; otherwise the first feature
yields `{ name: properties.name || properties.full_address, coordinates }`. -/
def geocodeLocation (address : String) (result : GeoResult) :
    Except JsError GeoLocation :=
  if result.isError then Except.error (toolErrorBranch result.content)
  else
    match result.structuredContent with
    | none => Except.error (JsError.error ("Could not geocode: " ++ address))
    | some data =>
      match data.features with
      | none => Except.error (JsError.error ("Could not geocode: " ++ address))
      | some [] => Except.error (JsError.error ("Could not geocode: " ++ address))
      | some (feature :: _) =>
        Except.ok
          { name := jsOrOpt feature.properties.name feature.properties.full_address
            coordinates := feature.coordinates }

/-- `categorySearch` applied to the tool result: error results go through the
shared error branch; a missing/empty feature collection returns `[]`; otherwise
every feature is mapped to a SearchResult. -/
def categorySearch (result : GeoResult) : Except JsError (List SearchResult) :=
  if result.isError then Except.error (toolErrorBranch result.content)
  else
    match result.structuredContent with
    | none => Except.ok []
    | some data =>
      match data.features with
      | none => Except.ok []
      | some [] => Except.ok []
      | some features =>
        Except.ok (features.map (fun feature =>
          { name := jsOrOpt feature.properties.name feature.properties.full_address
            coordinates := feature.coordinates
            address := jsOrOpt feature.properties.full_address
              feature.properties.place_formatted }))

/-! ## Routing -/

/-- One element of `data.routes`: the fields the code reads. -/
structure RouteRaw where
  geometry : List (ℚ × ℚ)
  distance : ℚ
  duration : ℚ
  deriving DecidableEq, Repr

/-- `structuredContent` of a directions result; `data.routes` may be missing. -/
structure DirData where
  routes : Option (List RouteRaw)
  deriving DecidableEq, Repr

/-- A tool result for the directions tool. -/
structure DirResult where
  isError : Bool
  content : List ContentEntry
  structuredContent : Option DirData
  deriving DecidableEq, Repr

/-- A tool invocation issued to the MCP server, with the arguments sent. -/
inductive ToolCall where
  | geocode (args : GeocodeArgs)
  | category (args : CategoryArgs)
  | directions (args : DirectionsArgs)
  deriving DecidableEq, Repr

/-- The body of `calculateRoute(coordinates)`, instrumented with the list of
tool calls it issues.  The source performs NO arity check on `coordinates`:
it always builds the directions request and sends it, then throws
`No route found` on a missing/empty `routes` array, else returns `routes[0]`. -/
def calculateRoute (coordinates : List (ℚ × ℚ))
    (dirTool : DirectionsArgs → DirResult) :
    List ToolCall × Except JsError RouteRaw :=
  let args := directionsRequest coordinates
  let result := dirTool args
  ([ToolCall.directions args],
    if result.isError then Except.error (toolErrorBranch result.content)
    else
      match result.structuredContent with
      | none => Except.error (JsError.error "No route found")
      | some data =>
        match data.routes with
        | none => Except.error (JsError.error "No route found")
        | some [] => Except.error (JsError.error "No route found")
        | some (route :: _) => Except.ok route)

/-! ## The plan-route HTTP handler (src/unnamed/part_005, POST) -/

/-- Request-body attraction `{ id, name, address }`. -/
structure Attraction where
  id : String
  name : String
  address : String
  deriving DecidableEq, Repr

/-- `Location` of `src/mastra/src/types/index.ts`: the handler pushes
`{ name: attraction.name, coordinates: location.coordinates }`. -/
structure Location where
  name : String
  coordinates : ℚ × ℚ
  deriving DecidableEq, Repr

/-- The remote MCP server, as the oracle answering each tool request. -/
structure Server where
  geocodeTool : GeocodeArgs → GeoResult
  categoryTool : CategoryArgs → GeoResult
  directionsTool : DirectionsArgs → DirResult

/-- `geocodeLocation(address)` end to end: issues one geocode tool call and
interprets the server's answer. -/
def geocodeLocationRun (address : String) (server : Server) :
    List ToolCall × Except JsError GeoLocation :=
  let args := geocodeRequest address
  ([ToolCall.geocode args], geocodeLocation address (server.geocodeTool args))

/-- The handler's geocoding loop: geocode each attraction in order; on the
first failure return early with that attraction (the handler's catch block
names it); on success collect `{ name: attraction.name, coordinates }`. -/
def geocodeAll (server : Server) : List Attraction →
    List ToolCall × Except Attraction (List Location)
  | [] => ([], Except.ok [])
  | a :: rest =>
    match geocodeLocationRun a.address server with
    | (calls, Except.error _) => (calls, Except.error a)
    | (calls, Except.ok loc) =>
      match geocodeAll server rest with
      | (restCalls, Except.error bad) => (calls ++ restCalls, Except.error bad)
      | (restCalls, Except.ok locs) =>
        (calls ++ restCalls,
          Except.ok ({ name := a.name, coordinates := loc.coordinates } :: locs))

/-- `RouteData` the handler returns (`distance` is a plain number of miles,
`duration` an integer number of minutes). -/
structure RouteData where
  locations : List Location
  geometry : List (ℚ × ℚ)
  distance : ℚ
  duration : ℤ
  deriving DecidableEq, Repr

/-- A JSON response from the handler: success payload or `{ error }` with an
HTTP status. -/
inductive HandlerResponse where
  | ok (data : RouteData)
  | err (status : ℕ) (message : String)
  deriving DecidableEq, Repr

/-- The exact meters→miles factor `0.000621371` the code multiplies by. -/
def mileFactor : ℚ := 621371 / 1000000000

/-- The plan-route POST handler (src/unnamed/part_005): reject a missing or
shorter-than-2 attraction list with a 400 before anything else; geocode all
attractions, turning the first failure into a 500 naming the attraction;
only then call `calculateRoute` and format the response, converting
meters→miles (number) and seconds→minutes (`Math.round`).  Instrumented with
the list of tool calls issued. -/
def planRouteHandler (server : Server) (attractions : Option (List Attraction)) :
    List ToolCall × HandlerResponse :=
  match attractions with
  | none => ([], HandlerResponse.err 400 "At least 2 attractions are required")
  | some atts =>
    if atts.length < 2 then
      ([], HandlerResponse.err 400 "At least 2 attractions are required")
    else
      match geocodeAll server atts with
      | (calls, Except.error bad) =>
        (calls, HandlerResponse.err 500 ("Failed to geocode " ++ bad.name))
      | (calls, Except.ok locations) =>
        let coordinates := locations.map (·.coordinates)
        match calculateRoute coordinates server.directionsTool with
        | (dirCalls, Except.error e) =>
          (calls ++ dirCalls, HandlerResponse.err 500 e.message)
        | (dirCalls, Except.ok route) =>
          (calls ++ dirCalls, HandlerResponse.ok
            { locations := locations
              geometry := route.geometry
              distance := route.distance * mileFactor
              duration := jsRound (route.duration / 60) })

/-! ## The Mastra agent (src/unnamed/part_001) -/

/-- `capturedRouteData` as the plan-route tool stores it: a string number of
miles (`toFixed(2)`) and integer minutes (`Math.round`). -/
structure CapturedRouteData where
  locations : List GeoLocation
  geometry : List (ℚ × ℚ)
  distance : String
  duration : ℤ
  deriving DecidableEq, Repr

/-- Lines 105-110 of the plan-route tool: format a raw route for the UI,
`(route.distance * 0.000621371).toFixed(2)` and `Math.round(route.duration / 60)`. -/
def formatRouteCapture (geocoded : List GeoLocation) (route : RouteRaw) :
    CapturedRouteData :=
  { locations := geocoded
    geometry := route.geometry
    distance := toFixed2 (route.distance * mileFactor)
    duration := jsRound (route.duration / 60) }

/-- The two module-level capture variables
(`capturedSearchResults`, `capturedRouteData`). -/
structure CaptureState where
  searchResults : Option (List SearchResult)
  routeData : Option CapturedRouteData
  deriving DecidableEq, Repr

/-- What happens inside one agent step, seen through the capture variables:
the category tool assigns `capturedSearchResults`, the plan-route tool assigns
`capturedRouteData`, anything else (search-location tool, plain text) assigns
neither. -/
inductive AgentEvent where
  | toolSearchCategory (results : List SearchResult)
  | toolPlanRoute (data : CapturedRouteData)
  | other
  deriving DecidableEq, Repr

/-- Effect of one agent event on the capture variables. -/
def applyEvent (s : CaptureState) : AgentEvent → CaptureState
  | AgentEvent.toolSearchCategory rs => { s with searchResults := some rs }
  | AgentEvent.toolPlanRoute d => { s with routeData := some d }
  | AgentEvent.other => s

/-- Run one `dcAgent.generate` call: the events happen in order and each
tool execution mutates the module-level capture variables. -/
def runAgent (events : List AgentEvent) (s : CaptureState) : CaptureState :=
  events.foldl applyEvent s

/-- The response envelope `{ type, searchResults?, routeData?, text }`. -/
structure AgentResponse where
  type : String
  searchResults : Option (List SearchResult)
  routeData : Option CapturedRouteData
  text : String
  deriving DecidableEq, Repr

/-- Lines 155-158:
```
let type = 'text';
if (capturedSearchResults) type = 'search_results';
if (capturedRouteData) type = 'route';
```
(sequential overwrites, so a captured route always wins). -/
def responseType (s : CaptureState) : String :=
  let t := "text"
  let t := if s.searchResults.isSome then "search_results" else t
  if s.routeData.isSome then "route" else t

/-- `processNaturalLanguageQuery`: reset both capture variables to
`undefined`, run the agent (whose tool executions are the event list), then
build the envelope from whatever is captured afterwards;
`text: result.text || 'No response'`. -/
def processNaturalLanguageQuery (_prior : CaptureState)
    (events : List AgentEvent) (resultText : Option String) :
    CaptureState × AgentResponse :=
  let reset : CaptureState := { searchResults := none, routeData := none }
  let after := runAgent events reset
  (after,
    { type := responseType after
      searchResults := after.searchResults
      routeData := after.routeData
      text := jsOrStr resultText "No response" })

/-! ## OAuth (src/mastra-oauth/src/lib/oauth.ts) -/

/-- Upper-case hex digit of `n < 16`. -/
def hexDigit (n : ℕ) : Char :=
  if n < 10 then Char.ofNat (48 + n) else Char.ofNat (55 + n)

/-- Percent-escape one code point (the strings this code serializes are
ASCII, one byte each). -/
def percentEscape (c : Char) : String :=
  String.mk ['%', hexDigit (c.toNat / 16 % 16), hexDigit (c.toNat % 16)]

/-- Is `c` kept verbatim by the `application/x-www-form-urlencoded`
serializer (`URLSearchParams.toString`)? -/
def formSafe (c : Char) : Bool :=
  c.isAlphanum || c = '*' || c = '-' || c = '.' || c = '_'

/-- Serialize one value as `URLSearchParams` does: safe characters verbatim,
space as `+`, everything else percent-escaped. -/
def formUrlEncode (s : String) : String :=
  String.join (s.data.map (fun c =>
    if formSafe c then String.mk [c]
    else if c = ' ' then "+" else percentEscape c))

/-- `URLSearchParams({...}).toString()`: `key=value` pairs joined by `&`,
in insertion order. -/
def formUrlEncodeParams (params : List (String × String)) : String :=
  String.intercalate "&"
    (params.map (fun p => formUrlEncode p.1 ++ "=" ++ formUrlEncode p.2))

/-- The environment variables `OAUTH_CONFIG` reads (absent in a default
deployment). -/
structure OAuthEnv where
  clientId : Option String
  redirectUri : Option String
  deriving DecidableEq, Repr

/-- The `OAUTH_CONFIG` object's fields. -/
structure OAuthConfigT where
  authorizationEndpoint : String
  tokenEndpoint : String
  registrationEndpoint : String
  clientId : String
  redirectUri : String
  scope : String
  deriving DecidableEq, Repr

/-- `OAUTH_CONFIG`: hard-coded endpoints; `clientId` is
`process.env.NEXT_PUBLIC_MAPBOX_OAUTH_CLIENT_ID || ''` and `redirectUri`
defaults to the localhost callback. -/
def OAUTH_CONFIG (env : OAuthEnv) : OAuthConfigT :=
  { authorizationEndpoint := "https://api.mapbox.com/oauth/authorize"
    tokenEndpoint := "https://mcp.mapbox.com/oauth/token"
    registrationEndpoint := "https://api.mapbox.com/oauth/register"
    clientId := jsOrStr env.clientId ""
    redirectUri := jsOrStr env.redirectUri "http://localhost:3000/auth/callback"
    scope := "styles:tiles styles:read fonts:read datasets:read" }

/-- The parameter list `getAuthorizationUrl` feeds to `URLSearchParams`
(insertion order preserved); `client_id: clientId || OAUTH_CONFIG.clientId`. -/
def authorizationParams (env : OAuthEnv) (stateParam : String)
    (clientId : Option String) : List (String × String) :=
  [("response_type", "code"),
   ("client_id", jsOrStr clientId (OAUTH_CONFIG env).clientId),
   ("redirect_uri", (OAUTH_CONFIG env).redirectUri),
   ("scope", (OAUTH_CONFIG env).scope),
   ("state", stateParam)]

/-- `getAuthorizationUrl(state, clientId?)`: pure string construction,
`` `${OAUTH_CONFIG.authorizationEndpoint}?${params.toString()}` ``.
The function body contains no `throw` and performs no I/O. -/
def getAuthorizationUrl (env : OAuthEnv) (stateParam : String)
    (clientId : Option String) : String :=
  (OAUTH_CONFIG env).authorizationEndpoint ++ "?" ++
    formUrlEncodeParams (authorizationParams env stateParam clientId)

/-! ## OAuth callback handling -/

/-- The query parameters the `/auth/callback` GET route reads. -/
structure CallbackQuery where
  code : Option String
  state : Option String
  error : Option String
  deriving DecidableEq, Repr

/-- What the GET route responds with: always a redirect. -/
inductive CallbackRouteResponse where
  | redirectError (message : String)
  | redirectMissingParameters
  | redirectWithFragment (code : String) (state : String)
  deriving DecidableEq, Repr

/-- The `/auth/callback` GET route (src/unnamed/part_003): forward an OAuth
`error`, reject a missing `code` or `state` with `missing_parameters`, and
otherwise redirect home with `code` and `state` in the URL fragment — the
route never compares `state` with anything (it has no access to the
session-stored value). -/
def callbackRoute (q : CallbackQuery) : CallbackRouteResponse :=
  match q.error with
  | some e => CallbackRouteResponse.redirectError e
  | none =>
    match q.code, q.state with
    | some c, some s => CallbackRouteResponse.redirectWithFragment c s
    | _, _ => CallbackRouteResponse.redirectMissingParameters

/-- The URL-fragment parameters the `Home` mount effect reads. -/
structure HashParams where
  code : Option String
  state : Option String
  access_token : Option String
  deriving DecidableEq, Repr

/-- The browser-side context of the `Home` mount effect: the session-stored
token, the URL fragment (if any), and the session-stored `oauth_state` nonce
written by `handleLogin`. -/
structure CallbackEnv where
  storedToken : Option String
  hash : Option HashParams
  storedState : Option String
  deriving DecidableEq, Repr

/-- The authentication action the mount effect takes. -/
inductive CallbackAction where
  | useStoredToken (token : String)
  | storeToken (token : String)
  | exchange (code : String)
  | noAuthAction
  deriving DecidableEq, Repr

/-- The `useEffect` of `src/mastra-oauth/src/app/page.tsx` (lines 30-70),
reduced to the authentication action it takes: use a stored token if present;
else, from the fragment, store a directly-passed `access_token`, or — when
`code && state` — call `exchangeCodeForToken(code)`.  The stored
`oauth_state` nonce is never read: no branch compares `state` against it. -/
def homeMountEffect (env : CallbackEnv) : CallbackAction :=
  match env.storedToken with
  | some t => CallbackAction.useStoredToken t
  | none =>
    match env.hash with
    | none => CallbackAction.noAuthAction
    | some h =>
      match h.access_token with
      | some t => CallbackAction.storeToken t
      | none =>
        match h.code, h.state with
        | some c, some _ => CallbackAction.exchange c
        | _, _ => CallbackAction.noAuthAction

/-! ## Concrete sample inputs used by counterexamples and witnesses -/

/-- A sample attraction. -/
def att1 : Attraction :=
  { id := "1", name := "White House", address := "1600 Pennsylvania Ave NW" }

/-- A second sample attraction. -/
def att2 : Attraction :=
  { id := "2", name := "US Capitol", address := "First St SE" }

/-- A tool result reporting an error with a text entry. -/
def failGeoResult : GeoResult :=
  { isError := true, content := [ContentEntry.text "boom"], structuredContent := none }

/-- A server whose geocode tool always fails. -/
def failServer : Server :=
  { geocodeTool := fun _ => failGeoResult
    categoryTool := fun _ => failGeoResult
    directionsTool := fun _ => { isError := false, content := [], structuredContent := none } }

/-- A sample raw route (100 meters, 60 seconds). -/
def okRoute : RouteRaw := { geometry := [], distance := 100, duration := 60 }

/-- A directions tool that always returns `okRoute`. -/
def okDirTool : DirectionsArgs → DirResult :=
  fun _ => { isError := false, content := [],
             structuredContent := some { routes := some [okRoute] } }

/-- A sample captured search-result list. -/
def sampleSearch : SearchResult :=
  { name := some "Busboys and Poets", coordinates := (-77, 38), address := none }

/-- A sample captured route payload. -/
def sampleCapture : CapturedRouteData :=
  { locations := [], geometry := [], distance := "1.00", duration := 10 }

/-- A sample geocoding feature. -/
def cafeFeature : Feature :=
  { properties := { name := some "Cafe", full_address := some "450 K St NW",
                    place_formatted := none }
    coordinates := (-77, 38) }

/-! ## Helper lemmas -/

theorem runAgent_cons (e : AgentEvent) (rest : List AgentEvent) (s : CaptureState) :
    runAgent (e :: rest) s = runAgent rest (applyEvent s e) := rfl

theorem runAgent_routeData_isSome (events : List AgentEvent) (s : CaptureState) :
    (runAgent events s).routeData.isSome = true ↔
      (s.routeData.isSome = true ∨ ∃ d, AgentEvent.toolPlanRoute d ∈ events) := by
  induction events generalizing s with
  | nil => simp [runAgent]
  | cons e rest ih =>
    cases e with
    | toolSearchCategory rs => simp [runAgent_cons, ih, applyEvent]
    | toolPlanRoute d => simp [runAgent_cons, ih, applyEvent]
    | other => simp [runAgent_cons, ih, applyEvent]

theorem runAgent_searchResults_isSome (events : List AgentEvent) (s : CaptureState) :
    (runAgent events s).searchResults.isSome = true ↔
      (s.searchResults.isSome = true ∨ ∃ rs, AgentEvent.toolSearchCategory rs ∈ events) := by
  induction events generalizing s with
  | nil => simp [runAgent]
  | cons e rest ih =>
    cases e with
    | toolSearchCategory rs => simp [runAgent_cons, ih, applyEvent]
    | toolPlanRoute d => simp [runAgent_cons, ih, applyEvent]
    | other => simp [runAgent_cons, ih, applyEvent]

theorem runAgent_no_capture (events : List AgentEvent) (s : CaptureState)
    (h : ∀ e ∈ events, e = AgentEvent.other) : runAgent events s = s := by
  induction events generalizing s with
  | nil => rfl
  | cons e rest ih =>
    have he : e = AgentEvent.other := h e (List.mem_cons_self e rest)
    rw [runAgent_cons, he]
    exact ih s (fun x hx => h x (List.mem_cons_of_mem _ hx))

theorem responseType_eq (s : CaptureState) :
    (responseType s = "route" ↔ s.routeData.isSome = true) ∧
      (responseType s = "search_results" ↔
        (s.routeData.isSome = false ∧ s.searchResults.isSome = true)) ∧
      (responseType s = "text" ↔
        (s.routeData.isSome = false ∧ s.searchResults.isSome = false)) := by
  rcases s with ⟨sr, rd⟩
  cases sr <;> cases rd <;> simp [responseType]

theorem geocodeAll_only_geocode_calls (server : Server) (atts : List Attraction) :
    ∀ c ∈ (geocodeAll server atts).1, ∃ g, c = ToolCall.geocode g := by
  induction atts with
  | nil => simp [geocodeAll]
  | cons a rest ih =>
    intro c hc
    rw [geocodeAll] at hc
    cases hg : geocodeLocation a.address (server.geocodeTool (geocodeRequest a.address)) with
    | error e =>
      simp only [geocodeLocationRun, hg] at hc
      simp only [List.mem_singleton] at hc
      exact ⟨geocodeRequest a.address, hc⟩
    | ok loc =>
      simp only [geocodeLocationRun, hg] at hc
      cases hrest : geocodeAll server rest with
      | mk restCalls res =>
        cases res with
        | error bad =>
          rw [hrest] at hc
          simp only [List.mem_append, List.mem_singleton] at hc
          rcases hc with hc | hc
          · exact ⟨geocodeRequest a.address, hc⟩
          · have := ih c
            rw [hrest] at this
            exact this hc
        | ok locs =>
          rw [hrest] at hc
          simp only [List.mem_append, List.mem_singleton] at hc
          rcases hc with hc | hc
          · exact ⟨geocodeRequest a.address, hc⟩
          · have := ih c
            rw [hrest] at this
            exact this hc

/-! ## Claim theorems -/

/-- C1: the OAuth callback code never validates `state`.  Whatever nonce is
stored in session storage (`oauth_state` is written by `handleLogin` and never
read back), a callback fragment carrying any `code` and any `state` proceeds
straight to `exchangeCodeForToken(code)`; the `/auth/callback` GET route
likewise forwards `code` and `state` without comparing `state` to anything.
This contradicts the claim that a mismatched or missing stored state is
rejected with `InvalidState` before any token exchange. -/
theorem oauth_callback_state_not_validated (storedState : Option String)
    (c s : String) :
    homeMountEffect ⟨none, some ⟨some c, some s, none⟩, storedState⟩ =
        CallbackAction.exchange c ∧
      callbackRoute ⟨some c, some s, none⟩ =
        CallbackRouteResponse.redirectWithFragment c s := ⟨rfl, rfl⟩

/-- C2 counterexample: `calculateRoute` performs no arity check.  Called with
a single coordinate, it still issues a directions tool call (a network call)
and returns whatever route the tool responds with — it does not fail with a
validation error beforehand. -/
theorem calculateRoute_no_arity_check_cex :
    calculateRoute [((0 : ℚ), (0 : ℚ))] okDirTool =
      ([ToolCall.directions (directionsRequest [(0, 0)])], Except.ok okRoute) := rfl

/-- C2 amended: the fewer-than-2 validation lives in the plan-route HTTP
handler, not in `calculateRoute`: a missing attraction list or one with fewer
than 2 entries is rejected with the 400 validation error before any tool call
is issued (the call trace is empty). -/
theorem plan_route_handler_rejects_short_lists (server : Server)
    (atts : List Attraction) (h : atts.length < 2) :
    planRouteHandler server (some atts) =
        ([], HandlerResponse.err 400 "At least 2 attractions are required") ∧
      planRouteHandler server none =
        ([], HandlerResponse.err 400 "At least 2 attractions are required") := by
  refine ⟨?_, rfl⟩
  simp [planRouteHandler, h]

/-- C2 witness: the handler rejects a concrete single-attraction request. -/
theorem plan_route_handler_rejects_short_lists_witness :
    [att1].length < 2 ∧
      (planRouteHandler failServer (some [att1]) =
          ([], HandlerResponse.err 400 "At least 2 attractions are required") ∧
        planRouteHandler failServer none =
          ([], HandlerResponse.err 400 "At least 2 attractions are required")) :=
  ⟨by decide, plan_route_handler_rejects_short_lists failServer [att1] (by decide)⟩

/-- C4: unit conversion at the boundary.  A route of 1609.34 meters and 125
seconds is captured as "1.00" miles and 2 minutes; a route of 1600 meters and
600 seconds is captured as "0.99" miles and 10 minutes; the factor used is
exactly 0.000621371 miles per meter. -/
theorem unit_conversion_exact :
    formatRouteCapture [] { geometry := [], distance := 160934/100, duration := 125 } =
        { locations := [], geometry := [], distance := "1.00", duration := 2 } ∧
      formatRouteCapture [] { geometry := [], distance := 1600, duration := 600 } =
        { locations := [], geometry := [], distance := "0.99", duration := 10 } ∧
      mileFactor = 621371 / 1000000000 := by
  have h1 : ⌊((160934/100 : ℚ) * mileFactor) * 100 + 1/2⌋ = (100 : ℤ) := by
    rw [Int.floor_eq_iff]
    constructor <;> norm_num [mileFactor]
  have h2 : jsRound ((125 : ℚ) / 60) = 2 := by
    rw [jsRound, Int.floor_eq_iff]
    constructor <;> norm_num
  have h3 : ⌊((1600 : ℚ) * mileFactor) * 100 + 1/2⌋ = (99 : ℤ) := by
    rw [Int.floor_eq_iff]
    constructor <;> norm_num [mileFactor]
  have h4 : jsRound ((600 : ℚ) / 60) = 10 := by
    rw [jsRound, Int.floor_eq_iff]
    constructor <;> norm_num
  refine ⟨?_, ?_, rfl⟩
  · rw [formatRouteCapture, toFixed2]
    rw [show ({ geometry := [], distance := 160934/100, duration := 125 } : RouteRaw).distance
        = (160934/100 : ℚ) from rfl]
    rw [h1, h2]
    rfl
  · rw [formatRouteCapture, toFixed2]
    rw [show ({ geometry := [], distance := 1600, duration := 600 } : RouteRaw).distance
        = (1600 : ℚ) from rfl]
    rw [h3, h4]
    rfl

/-- C5 counterexample: an error result with an EMPTY content array does not
produce the generic failure.  `result.content[0]` is `undefined`, so the
access `firstContent.type` itself raises a TypeError before either designed
`throw` is reached: the surfaced error is a TypeError, not the generic
`MCP tool returned an error`. -/
theorem empty_content_typeerror_cex :
    geocodeLocation "x" { isError := true, content := [], structuredContent := none } =
        Except.error (JsError.typeError "Cannot read properties of undefined (reading type)") ∧
      toolErrorBranch [] ≠ JsError.error "MCP tool returned an error" ∧
      JsError.message (toolErrorBranch []) ≠ "MCP tool returned an error" :=
  ⟨rfl, by decide, by decide⟩

/-- C5 amended: for every error result whose first content entry is a text
entry, each invoker wrapper throws an error whose message is
`MCP tool error: ` followed by that text (so a result carrying the text
`rate limited` surfaces with `rate limited` in the message); a first entry
that exists but is not text yields the generic failure; an empty content
array instead crashes with a TypeError raised by the property access on the
missing entry. -/
theorem tool_error_translation (address : String) (sc : Option GeoData)
    (dc : Option DirData) (coords : List (ℚ × ℚ)) (s : String)
    (rest : List ContentEntry) :
    geocodeLocation address
        { isError := true, content := ContentEntry.text s :: rest, structuredContent := sc } =
        Except.error (JsError.error ("MCP tool error: " ++ s)) ∧
      categorySearch
        { isError := true, content := ContentEntry.text s :: rest, structuredContent := sc } =
        Except.error (JsError.error ("MCP tool error: " ++ s)) ∧
      (calculateRoute coords (fun _ =>
        { isError := true, content := ContentEntry.text s :: rest, structuredContent := dc })).2 =
        Except.error (JsError.error ("MCP tool error: " ++ s)) ∧
      geocodeLocation address
        { isError := true, content := ContentEntry.other :: rest, structuredContent := sc } =
        Except.error (JsError.error "MCP tool returned an error") ∧
      geocodeLocation address
        { isError := true, content := [], structuredContent := sc } =
        Except.error (JsError.typeError "Cannot read properties of undefined (reading type)") :=
  ⟨rfl, rfl, rfl, rfl, rfl⟩

/-- C6: `geocodeLocation` on a successful tool call: a missing
`structuredContent`, a missing `features` field, or an empty feature list all
fail with the NotFound-style error naming the address; a non-empty feature
list yields the Location built from the first feature — its name with the
JS `||` fallback to the full address — and its geometry coordinates. -/
theorem geocode_feature_collection_behavior (address : String)
    (content : List ContentEntry) (f : Feature) (rest : List Feature) :
    geocodeLocation address { isError := false, content := content, structuredContent := none } =
        Except.error (JsError.error ("Could not geocode: " ++ address)) ∧
      geocodeLocation address
        { isError := false, content := content, structuredContent := some { features := none } } =
        Except.error (JsError.error ("Could not geocode: " ++ address)) ∧
      geocodeLocation address
        { isError := false, content := content, structuredContent := some { features := some [] } } =
        Except.error (JsError.error ("Could not geocode: " ++ address)) ∧
      geocodeLocation address
        { isError := false, content := content,
          structuredContent := some { features := some (f :: rest) } } =
        Except.ok { name := jsOrOpt f.properties.name f.properties.full_address
                    coordinates := f.coordinates } :=
  ⟨rfl, rfl, rfl, rfl⟩

/-- C7: `categorySearch` always requests with the fixed limit 10 (and the
fixed country filter and format); a missing `structuredContent`, missing
`features`, or empty feature list returns the empty list rather than an
error; a non-empty feature list is mapped feature-by-feature to
SearchResults of name, coordinates and optional address. -/
theorem category_search_limit_and_empty (category : String) (prox : ℚ × ℚ)
    (content : List ContentEntry) (features : List Feature) :
    (categorySearchRequest category prox).limit = 10 ∧
      categorySearchRequest category prox =
        { category := category, proximity := prox, country := ["us"],
          limit := 10, format := "json_string" } ∧
      categorySearch { isError := false, content := content, structuredContent := none } =
        Except.ok [] ∧
      categorySearch
        { isError := false, content := content, structuredContent := some { features := none } } =
        Except.ok [] ∧
      categorySearch
        { isError := false, content := content, structuredContent := some { features := some [] } } =
        Except.ok [] ∧
      (features ≠ [] →
        categorySearch
          { isError := false, content := content,
            structuredContent := some { features := some features } } =
          Except.ok (features.map (fun feature =>
            { name := jsOrOpt feature.properties.name feature.properties.full_address
              coordinates := feature.coordinates
              address := jsOrOpt feature.properties.full_address
                feature.properties.place_formatted }))) := by
  refine ⟨rfl, rfl, rfl, rfl, rfl, ?_⟩
  intro hne
  cases features with
  | nil => exact absurd rfl hne
  | cons f fs => rfl

/-- C7 witness: instantiate at a concrete category, with a concrete singleton
feature collection. -/
theorem category_search_limit_and_empty_witness :
    ([cafeFeature] : List Feature) ≠ [] ∧
      ((categorySearchRequest "coffee" ((-77 : ℚ), (38 : ℚ))).limit = 10 ∧
        categorySearchRequest "coffee" ((-77 : ℚ), (38 : ℚ)) =
          { category := "coffee", proximity := ((-77 : ℚ), (38 : ℚ)), country := ["us"],
            limit := 10, format := "json_string" } ∧
        categorySearch { isError := false, content := [], structuredContent := none } =
          Except.ok [] ∧
        categorySearch
          { isError := false, content := [], structuredContent := some { features := none } } =
          Except.ok [] ∧
        categorySearch
          { isError := false, content := [], structuredContent := some { features := some [] } } =
          Except.ok [] ∧
        (([cafeFeature] : List Feature) ≠ [] →
          categorySearch
            { isError := false, content := [],
              structuredContent := some { features := some [cafeFeature] } } =
            Except.ok ([cafeFeature].map (fun feature =>
              { name := jsOrOpt feature.properties.name feature.properties.full_address
                coordinates := feature.coordinates
                address := jsOrOpt feature.properties.full_address
                  feature.properties.place_formatted })))) :=
  ⟨by simp, category_search_limit_and_empty "coffee" ((-77 : ℚ), (38 : ℚ)) [] [cafeFeature]⟩

/-- C3 counterexample: the envelope is NOT tagged by whichever side-channel
output was most recently produced.  In an invocation whose last capture is the
search results (the route was captured earlier), the envelope type is still
`route` — the route capture takes priority regardless of recency — and both
payloads, not just the most recent one, are attached. -/
theorem response_type_ignores_recency_cex :
    (processNaturalLanguageQuery ⟨none, none⟩
        [AgentEvent.toolPlanRoute sampleCapture,
         AgentEvent.toolSearchCategory [sampleSearch]]
        (some "ok")).2 =
        { type := "route", searchResults := some [sampleSearch],
          routeData := some sampleCapture, text := "ok" } ∧
      ("route" : String) ≠ "search_results" :=
  ⟨rfl, by decide⟩

/-- C3 amended: the envelope type is `route` exactly when the plan-route tool
produced output at any point of the invocation (regardless of order),
`search_results` exactly when the category tool produced output and the
plan-route tool did not, and `text` when neither did; every captured payload
is attached to the envelope, not only the most recent one. -/
theorem response_type_priority (prior : CaptureState) (events : List AgentEvent)
    (text : Option String) :
    ((processNaturalLanguageQuery prior events text).2.routeData.isSome = true ↔
        (∃ d, AgentEvent.toolPlanRoute d ∈ events)) ∧
      ((processNaturalLanguageQuery prior events text).2.searchResults.isSome = true ↔
        (∃ rs, AgentEvent.toolSearchCategory rs ∈ events)) ∧
      ((processNaturalLanguageQuery prior events text).2.type = "route" ↔
        (∃ d, AgentEvent.toolPlanRoute d ∈ events)) ∧
      ((processNaturalLanguageQuery prior events text).2.type = "search_results" ↔
        ((¬ ∃ d, AgentEvent.toolPlanRoute d ∈ events) ∧
          ∃ rs, AgentEvent.toolSearchCategory rs ∈ events)) ∧
      ((processNaturalLanguageQuery prior events text).2.type = "text" ↔
        ((¬ ∃ d, AgentEvent.toolPlanRoute d ∈ events) ∧
          ¬ ∃ rs, AgentEvent.toolSearchCategory rs ∈ events)) := by
  have hR := runAgent_routeData_isSome events ⟨none, none⟩
  have hS := runAgent_searchResults_isSome events ⟨none, none⟩
  simp only [Option.isSome_none, Bool.false_eq_true, false_or] at hR hS
  have hnR : ((runAgent events ⟨none, none⟩).routeData.isSome = false ↔
      ¬ ∃ d, AgentEvent.toolPlanRoute d ∈ events) := by
    rw [← hR, Bool.not_eq_true]
  have hnS : ((runAgent events ⟨none, none⟩).searchResults.isSome = false ↔
      ¬ ∃ rs, AgentEvent.toolSearchCategory rs ∈ events) := by
    rw [← hS, Bool.not_eq_true]
  refine ⟨hR, hS, ?_, ?_, ?_⟩
  · exact (responseType_eq (runAgent events ⟨none, none⟩)).1.trans hR
  · exact ((responseType_eq (runAgent events ⟨none, none⟩)).2.1).trans (and_congr hnR hS)
  · exact ((responseType_eq (runAgent events ⟨none, none⟩)).2.2).trans (and_congr hnR hnS)

/-- C8: route planning is all-or-nothing.  Whenever the geocoding loop fails on
some attraction, the handler responds with the 500 error naming that
attraction, the call trace contains no directions tool call (every call issued
is a geocode call), and no RouteData is returned. -/
theorem plan_route_all_or_nothing (server : Server) (atts : List Attraction)
    (bad : Attraction) (h2 : 2 ≤ atts.length)
    (herr : (geocodeAll server atts).2 = Except.error bad) :
    planRouteHandler server (some atts) =
        ((geocodeAll server atts).1,
          HandlerResponse.err 500 ("Failed to geocode " ++ bad.name)) ∧
      ∀ args, ToolCall.directions args ∉ (planRouteHandler server (some atts)).1 := by
  have hnl : ¬ atts.length < 2 := Nat.not_lt.mpr h2
  have hpair : geocodeAll server atts = ((geocodeAll server atts).1, Except.error bad) := by
    rw [← herr]
  have hmain : planRouteHandler server (some atts) =
      ((geocodeAll server atts).1,
        HandlerResponse.err 500 ("Failed to geocode " ++ bad.name)) := by
    rw [planRouteHandler, if_neg hnl, hpair]
  refine ⟨hmain, ?_⟩
  intro args hmem
  rw [hmain] at hmem
  obtain ⟨g, hg⟩ := geocodeAll_only_geocode_calls server atts _ hmem
  simp at hg

/-- C8 witness: a concrete two-attraction request against a server whose
geocode tool always fails. -/
theorem plan_route_all_or_nothing_witness :
    2 ≤ [att1, att2].length ∧
      (geocodeAll failServer [att1, att2]).2 = Except.error att1 ∧
      (planRouteHandler failServer (some [att1, att2]) =
          ((geocodeAll failServer [att1, att2]).1,
            HandlerResponse.err 500 ("Failed to geocode " ++ att1.name)) ∧
        ∀ args, ToolCall.directions args ∉
          (planRouteHandler failServer (some [att1, att2])).1) :=
  ⟨by decide, rfl,
    plan_route_all_or_nothing failServer [att1, att2] att1 (by decide) rfl⟩

/-- C9 counterexample: `getAuthorizationUrl` never fails and silently defaults
the client identifier.  With no client id argument and no configured client id,
it returns a complete authorization URL whose `client_id` parameter is the
empty string — no error is thrown (the function is total, with no error
outcome in its type). -/
theorem authorization_url_silent_default_cex :
    getAuthorizationUrl ⟨none, none⟩ "xyz" none =
        "https://api.mapbox.com/oauth/authorize?response_type=code&client_id=&redirect_uri=http%3A%2F%2Flocalhost%3A3000%2Fauth%2Fcallback&scope=styles%3Atiles+styles%3Aread+fonts%3Aread+datasets%3Aread&state=xyz" ∧
      (OAUTH_CONFIG ⟨none, none⟩).clientId = "" ∧
      authorizationParams ⟨none, none⟩ "xyz" none =
        [("response_type", "code"), ("client_id", ""),
         ("redirect_uri", "http://localhost:3000/auth/callback"),
         ("scope", "styles:tiles styles:read fonts:read datasets:read"),
         ("state", "xyz")] :=
  ⟨rfl, rfl, rfl⟩

/-- C9 amended: building the authorization URL is deterministic string
construction with no side effects and no failure path: the authorization
endpoint is a hard-coded constant, and the client identifier falls back
through `clientId || OAUTH_CONFIG.clientId` with `OAUTH_CONFIG.clientId`
itself defaulting to the empty string, so an absent configuration is silently
defaulted rather than reported. -/
theorem authorization_url_total_and_defaulting (env : OAuthEnv)
    (stateParam : String) (clientId : Option String) :
    getAuthorizationUrl env stateParam clientId =
      "https://api.mapbox.com/oauth/authorize?" ++
        formUrlEncodeParams
          [("response_type", "code"),
           ("client_id", jsOrStr clientId (jsOrStr env.clientId "")),
           ("redirect_uri", jsOrStr env.redirectUri "http://localhost:3000/auth/callback"),
           ("scope", "styles:tiles styles:read fonts:read datasets:read"),
           ("state", stateParam)] := rfl

/-- C10: both capture variables are reset to `undefined` at the start of every
`processNaturalLanguageQuery` call, so under sequential non-overlapping calls
a query during which the agent invokes no capturing tool returns a `text`
envelope with both payloads `undefined`, regardless of what any previous call
left in the module-level variables. -/
theorem capture_reset_no_stale_payload (prior : CaptureState)
    (events : List AgentEvent) (text : Option String)
    (h : ∀ e ∈ events, e = AgentEvent.other) :
    (processNaturalLanguageQuery prior events text).2.type = "text" ∧
      (processNaturalLanguageQuery prior events text).2.searchResults = none ∧
      (processNaturalLanguageQuery prior events text).2.routeData = none := by
  have hr : runAgent events ⟨none, none⟩ = ⟨none, none⟩ :=
    runAgent_no_capture events ⟨none, none⟩ h
  refine ⟨?_, ?_, ?_⟩ <;>
    simp [processNaturalLanguageQuery, hr, responseType]

/-- C10 witness: a stale prior capture state and a capture-free invocation. -/
theorem capture_reset_no_stale_payload_witness :
    (∀ e ∈ [AgentEvent.other], e = AgentEvent.other) ∧
      ((processNaturalLanguageQuery ⟨some [sampleSearch], some sampleCapture⟩
          [AgentEvent.other] (some "hi")).2.type = "text" ∧
        (processNaturalLanguageQuery ⟨some [sampleSearch], some sampleCapture⟩
          [AgentEvent.other] (some "hi")).2.searchResults = none ∧
        (processNaturalLanguageQuery ⟨some [sampleSearch], some sampleCapture⟩
          [AgentEvent.other] (some "hi")).2.routeData = none) :=
  ⟨by simp,
    capture_reset_no_stale_payload ⟨some [sampleSearch], some sampleCapture⟩
      [AgentEvent.other] (some "hi") (by simp)⟩

end DCTour
